import Mathlib

/-!
Verification of `src/db.c`, a straight-line C program that prints the byte
sizes of `int`, `int*`, `uint8_t` and `uint32_t` and returns 0.

The embedding keeps the source structure: each `printf` call appends one
string (including its trailing newline) to standard output and returns the
number of characters written, a value the program discards.  The sizes
themselves are implementation-defined, so they are parameters of the
model, gathered in a `Platform` record.
-/

namespace Db

/-- The implementation-defined byte sizes the program queries with
`sizeof`.  One `Platform` value describes one compiling platform. -/
structure Platform where
  sizeof_int : Nat
  sizeof_int_ptr : Nat
  sizeof_uint8_t : Nat
  sizeof_uint32_t : Nat

/-- The LP64 data model of common 64-bit platforms: `int` is 4 bytes,
pointers are 8, `uint8_t` is 1, `uint32_t` is 4. -/
def lp64 : Platform := ⟨4, 8, 1, 4⟩

/-- Output of `printf("sizeof(int) = %zu\n", sizeof(int))`. -/
def line1 (p : Platform) : String := "sizeof(int) = " ++ toString p.sizeof_int ++ "\n"

/-- Output of `printf("sizeof(int*) = %zu\n", sizeof(int*))`. -/
def line2 (p : Platform) : String := "sizeof(int*) = " ++ toString p.sizeof_int_ptr ++ "\n"

/-- Output of `printf("sizeof(uint8_t) = %zu\n", sizeof(uint8_t))`. -/
def line3 (p : Platform) : String := "sizeof(uint8_t) = " ++ toString p.sizeof_uint8_t ++ "\n"

/-- Output of `printf("sizeof(uint32_t) = %zu\n", sizeof(uint32_t))`. -/
def line4 (p : Platform) : String := "sizeof(uint32_t) = " ++ toString p.sizeof_uint32_t ++ "\n"

/-- The four print payloads of the body of `main`, in source order. -/
def stmts (p : Platform) : List String := [line1 p, line2 p, line3 p, line4 p]

/-- The observable world: standard output plus the environment variables
and the file system, which the program never touches. -/
structure World where
  stdout : List String
  env : String → Option String
  files : String → Option String

/-- A world with empty standard output, no environment, no files. -/
def emptyWorld : World := ⟨[], fun _ => none, fun _ => none⟩

/-- `printf` writes one string to standard output and returns the number
of characters written. -/
def printf (l : String) (w : World) : World × Int :=
  ({ w with stdout := w.stdout ++ [l] }, (l.length : Int))

/-- `main` from `src/db.c`: four `printf` calls whose results are
discarded, then `return 0`.  `argc` and `argv` are accepted but unused,
exactly as in the source. -/
def main (p : Platform) (argc : Nat) (argv : List String) (w : World) : World × Int :=
  let r1 := printf (line1 p) w
  let r2 := printf (line2 p) r1.1
  let r3 := printf (line3 p) r2.1
  let r4 := printf (line4 p) r3.1
  (r4.1, 0)

/-! ## Small-step machine

The same straight-line body as a small-step transition relation: a program
counter over `stmts`, an output buffer, and a halt flag carrying the exit
status once `return 0` executes. -/

/-- Machine state: output so far, program counter into `stmts`, and the
exit status once the program has returned. -/
structure ExecState where
  stdout : List String
  pc : Nat
  halted : Option Int
deriving DecidableEq

/-- The state at process start. -/
def initState : ExecState := ⟨[], 0, none⟩

/-- One step of the body of `main`: execute the `printf` at the program
counter if one remains, otherwise execute `return 0`. -/
inductive Step (p : Platform) : ExecState → ExecState → Prop
  | print (out : List String) (pc : Nat) (l : String) :
      (stmts p)[pc]? = some l →
      Step p ⟨out, pc, none⟩ ⟨out ++ [l], pc + 1, none⟩
  | ret (out : List String) (pc : Nat) :
      (stmts p)[pc]? = none →
      Step p ⟨out, pc, none⟩ ⟨out, pc, some 0⟩

/-- The state after the whole body has run: all four lines printed and
exit status 0 recorded. -/
def finalState (p : Platform) : ExecState := ⟨stmts p, 4, some 0⟩

lemma run_to_final (p : Platform) :
    Relation.ReflTransGen (Step p) initState (finalState p) := by
  have h1 : Step p ⟨[], 0, none⟩ ⟨[line1 p], 1, none⟩ :=
    Step.print [] 0 (line1 p) rfl
  have h2 : Step p ⟨[line1 p], 1, none⟩ ⟨[line1 p, line2 p], 2, none⟩ :=
    Step.print [line1 p] 1 (line2 p) rfl
  have h3 : Step p ⟨[line1 p, line2 p], 2, none⟩
      ⟨[line1 p, line2 p, line3 p], 3, none⟩ :=
    Step.print [line1 p, line2 p] 2 (line3 p) rfl
  have h4 : Step p ⟨[line1 p, line2 p, line3 p], 3, none⟩
      ⟨[line1 p, line2 p, line3 p, line4 p], 4, none⟩ :=
    Step.print [line1 p, line2 p, line3 p] 3 (line4 p) rfl
  have h5 : Step p ⟨[line1 p, line2 p, line3 p, line4 p], 4, none⟩ (finalState p) :=
    Step.ret [line1 p, line2 p, line3 p, line4 p] 4 rfl
  exact .head h1 (.head h2 (.head h3 (.head h4 (.single h5))))

lemma final_stuck (p : Platform) (t : ExecState) : ¬ Step p (finalState p) t := by
  intro h
  cases h

lemma step_det {p : Platform} {s t t' : ExecState} (h1 : Step p s t)
    (h2 : Step p s t') : t = t' := by
  cases h1 with
  | print out pc l hl =>
    cases h2 with
    | print out2 pc2 l2 hl2 =>
      rw [hl] at hl2
      cases hl2
      rfl
    | ret out2 pc2 hn =>
      rw [hl] at hn
      cases hn
  | ret out pc hn =>
    cases h2 with
    | print out2 pc2 l2 hl2 =>
      rw [hn] at hl2
      cases hl2
    | ret out2 pc2 hn2 =>
      rfl

lemma stuck_unique {p : Platform} {a b c : ExecState}
    (hab : Relation.ReflTransGen (Step p) a b)
    (hb : ∀ t, ¬ Step p b t)
    (hac : Relation.ReflTransGen (Step p) a c)
    (hc : ∀ t, ¬ Step p c t) : b = c := by
  induction hab using Relation.ReflTransGen.head_induction_on with
  | refl =>
    rcases (Relation.ReflTransGen.cases_head hac) with h | ⟨d, hd, hdc⟩
    · exact h
    · exact absurd hd (hb d)
  | head hstep _ ih =>
    rename_i x y hyb
    rcases (Relation.ReflTransGen.cases_head hac) with h | ⟨d, hd, hdc⟩
    · exact absurd hstep (h ▸ hc y)
    · exact ih (step_det hstep hd ▸ hdc)

/-! ## Output failures

A variant of the semantics where each `printf` call may fail (for
instance, standard output is closed).  A failing call writes nothing and
returns -1; the program discards the return value either way.  The
`attempted` trace records every call issued, successful or not. -/

/-- World for the failure model: actual output plus the trace of
attempted writes. -/
structure TryWorld where
  stdout : List String
  attempted : List String

/-- A `printf` call that fails when `f` is true: nothing is written and
-1 is returned; otherwise the line is written and its length returned.
Both branches record the attempt. -/
def printfTry (f : Bool) (l : String) (w : TryWorld) : TryWorld × Int :=
  if f then ({ w with attempted := w.attempted ++ [l] }, -1)
  else (⟨w.stdout ++ [l], w.attempted ++ [l]⟩, (l.length : Int))

/-- `main` under the failure model: `failAt i` tells whether the i-th
`printf` call fails.  The return values are discarded, as in the source. -/
def mainTry (failAt : Nat → Bool) (p : Platform) (argc : Nat)
    (argv : List String) (w : TryWorld) : TryWorld × Int :=
  let r1 := printfTry (failAt 0) (line1 p) w
  let r2 := printfTry (failAt 1) (line2 p) r1.1
  let r3 := printfTry (failAt 2) (line3 p) r2.1
  let r4 := printfTry (failAt 3) (line4 p) r3.1
  (r4.1, 0)

lemma printfTry_attempted (f : Bool) (l : String) (w : TryWorld) :
    ((printfTry f l w).1).attempted = w.attempted ++ [l] := by
  cases f <;> simp [printfTry]

/-! ## Conforming C platforms

The C standard makes `uint8_t` and `uint32_t` exact-width types: they
exist only when the implementation has an unsigned type of exactly 8
(resp. 32) bits with no padding, and `CHAR_BIT` is at least 8.  A
platform on which `src/db.c` compiles therefore satisfies the following
constraints. -/

/-- A platform conforming to the C standard on which the program
compiles: bytes have `char_bit ≥ 8` bits, `uint8_t` occupies exactly 8
bits and at least one byte, and `uint32_t` occupies exactly 32 bits. -/
structure CPlatform extends Platform where
  char_bit : Nat
  char_bit_ge : 8 ≤ char_bit
  uint8_pos : 1 ≤ sizeof_uint8_t
  uint8_exact : sizeof_uint8_t * char_bit = 8
  uint32_exact : sizeof_uint32_t * char_bit = 32

lemma cplatform_sizes (c : CPlatform) :
    c.sizeof_uint8_t = 1 ∧ c.sizeof_uint32_t = 4 := by
  have hcb : c.char_bit ≤ 8 := by
    calc c.char_bit = 1 * c.char_bit := (one_mul _).symm
      _ ≤ c.sizeof_uint8_t * c.char_bit := Nat.mul_le_mul_right _ c.uint8_pos
      _ = 8 := c.uint8_exact
  have hcb8 : c.char_bit = 8 := le_antisymm hcb c.char_bit_ge
  have h8 := c.uint8_exact
  have h32 := c.uint32_exact
  rw [hcb8] at h8 h32
  omega

/-! ## Coherence

The denotational `main` and the small-step machine agree on what is
printed. -/

lemma main_agrees_machine (p : Platform) (argc : Nat) (argv : List String)
    (w : World) :
    (main p argc argv w).1.stdout = w.stdout ++ (finalState p).stdout := by
  simp [main, printf, finalState, stmts]

/-! ## Claims -/

/-- C1: for every platform, every argument vector and every starting
world, the program appends to standard output exactly four lines, in the
fixed order `sizeof(int) = <N>`, `sizeof(int*) = <N>`,
`sizeof(uint8_t) = <N>`, `sizeof(uint32_t) = <N>`, and nothing else. -/
theorem main_output_four_lines (p : Platform) (argc : Nat)
    (argv : List String) (w : World) :
    ∃ n1 n2 n3 n4 : Nat,
      (main p argc argv w).1.stdout = w.stdout ++
        ["sizeof(int) = " ++ toString n1 ++ "\n",
         "sizeof(int*) = " ++ toString n2 ++ "\n",
         "sizeof(uint8_t) = " ++ toString n3 ++ "\n",
         "sizeof(uint32_t) = " ++ toString n4 ++ "\n"] :=
  ⟨p.sizeof_int, p.sizeof_int_ptr, p.sizeof_uint8_t, p.sizeof_uint32_t, by
    simp [main, printf, line1, line2, line3, line4]⟩

/-- C1 witness: the four-line shape at a concrete platform and world. -/
theorem main_output_four_lines_witness :
    ∃ n1 n2 n3 n4 : Nat,
      (main lp64 1 ["prog"] emptyWorld).1.stdout = emptyWorld.stdout ++
        ["sizeof(int) = " ++ toString n1 ++ "\n",
         "sizeof(int*) = " ++ toString n2 ++ "\n",
         "sizeof(uint8_t) = " ++ toString n3 ++ "\n",
         "sizeof(uint32_t) = " ++ toString n4 ++ "\n"] :=
  main_output_four_lines lp64 1 ["prog"] emptyWorld

/-- C2: the four numbers printed are exactly the platform's byte sizes of
`int`, `int*`, `uint8_t` and `uint32_t`, in that order. -/
theorem main_prints_platform_sizes (p : Platform) (argc : Nat)
    (argv : List String) (w : World) :
    (main p argc argv w).1.stdout = w.stdout ++
      ["sizeof(int) = " ++ toString p.sizeof_int ++ "\n",
       "sizeof(int*) = " ++ toString p.sizeof_int_ptr ++ "\n",
       "sizeof(uint8_t) = " ++ toString p.sizeof_uint8_t ++ "\n",
       "sizeof(uint32_t) = " ++ toString p.sizeof_uint32_t ++ "\n"] := by
  simp [main, printf, line1, line2, line3, line4]

/-- C2 witness: evaluation at a concrete platform and world. -/
theorem main_prints_platform_sizes_witness :
    (main lp64 1 ["prog"] emptyWorld).1.stdout = emptyWorld.stdout ++
      ["sizeof(int) = " ++ toString lp64.sizeof_int ++ "\n",
       "sizeof(int*) = " ++ toString lp64.sizeof_int_ptr ++ "\n",
       "sizeof(uint8_t) = " ++ toString lp64.sizeof_uint8_t ++ "\n",
       "sizeof(uint32_t) = " ++ toString lp64.sizeof_uint32_t ++ "\n"] :=
  main_prints_platform_sizes lp64 1 ["prog"] emptyWorld

/-- C3: on an LP64 platform with no arguments, the output is exactly the
four lines `sizeof(int) = 4`, `sizeof(int*) = 8`, `sizeof(uint8_t) = 1`,
`sizeof(uint32_t) = 4`, and the exit status is 0. -/
theorem main_lp64_concrete :
    (main lp64 1 ["prog"] emptyWorld).1.stdout =
      ["sizeof(int) = 4\n", "sizeof(int*) = 8\n",
       "sizeof(uint8_t) = 1\n", "sizeof(uint32_t) = 4\n"] ∧
    (main lp64 1 ["prog"] emptyWorld).2 = 0 := by
  constructor <;> rfl

/-- C4: whatever the platform, the arguments and the starting world, the
entry point returns exit status 0. -/
theorem main_exit_zero (p : Platform) (argc : Nat) (argv : List String)
    (w : World) : (main p argc argv w).2 = 0 := rfl

/-- C4 witness: evaluation at a concrete platform and world. -/
theorem main_exit_zero_witness : (main lp64 3 ["prog", "a", "b"] emptyWorld).2 = 0 :=
  main_exit_zero lp64 3 ["prog", "a", "b"] emptyWorld

/-- C5: for every platform and argument vector, the small-step machine
started at `initState` reaches, in finitely many steps, a state that has
printed the four lines, holds exit status 0, and admits no further step:
the program always terminates. -/
theorem main_terminates (p : Platform) (argc : Nat) (argv : List String) :
    ∃ s : ExecState, Relation.ReflTransGen (Step p) initState s ∧
      s.halted = some 0 ∧ s.stdout = stmts p ∧ ∀ t, ¬ Step p s t :=
  ⟨finalState p, run_to_final p, rfl, rfl, final_stuck p⟩

/-- C5 witness: termination at a concrete platform. -/
theorem main_terminates_witness :
    ∃ s : ExecState, Relation.ReflTransGen (Step lp64) initState s ∧
      s.halted = some 0 ∧ s.stdout = stmts lp64 ∧ ∀ t, ¬ Step lp64 s t :=
  main_terminates lp64 1 ["prog"]

/-- C6: arguments are accepted but never used: two runs on the same
platform from the same world, one with any arguments and one with any
others, produce identical output worlds and exit statuses. -/
theorem main_ignores_args (p : Platform) (argc argc2 : Nat)
    (argv argv2 : List String) (w : World) :
    main p argc argv w = main p argc2 argv2 w := rfl

/-- C6 witness: a run with no arguments equals a run with `a b c`. -/
theorem main_ignores_args_witness :
    main lp64 1 ["prog"] emptyWorld = main lp64 4 ["prog", "a", "b", "c"] emptyWorld :=
  main_ignores_args lp64 1 4 ["prog"] ["prog", "a", "b", "c"] emptyWorld

/-- C7: under any pattern of `printf` failures, the program still issues
all four calls in order (no branch observes a failure) and still exits
with status 0. -/
theorem main_ignores_output_failures (failAt : Nat → Bool) (p : Platform)
    (argc : Nat) (argv : List String) (w : TryWorld) :
    (mainTry failAt p argc argv w).2 = 0 ∧
    (mainTry failAt p argc argv w).1.attempted = w.attempted ++ stmts p := by
  refine ⟨rfl, ?_⟩
  simp [mainTry, printfTry_attempted, stmts]

/-- C7 witness: all calls attempted and exit 0 when every call fails. -/
theorem main_ignores_output_failures_witness :
    (mainTry (fun _ => true) lp64 1 ["prog"] ⟨[], []⟩).2 = 0 ∧
    (mainTry (fun _ => true) lp64 1 ["prog"] ⟨[], []⟩).1.attempted =
      ([] : List String) ++ stmts lp64 :=
  main_ignores_output_failures (fun _ => true) lp64 1 ["prog"] ⟨[], []⟩

/-- C8: the only observable effect is on standard output: the environment
and the file system are returned unchanged, standard output is extended by
exactly the four lines, and the exit status is 0. -/
theorem main_frame (p : Platform) (argc : Nat) (argv : List String)
    (w : World) :
    (main p argc argv w).1.env = w.env ∧
    (main p argc argv w).1.files = w.files ∧
    (main p argc argv w).1.stdout = w.stdout ++ stmts p ∧
    (main p argc argv w).2 = 0 := by
  refine ⟨rfl, rfl, ?_, rfl⟩
  simp [main, printf, stmts]

/-- C8 witness: the frame property at a concrete platform and world. -/
theorem main_frame_witness :
    (main lp64 1 ["prog"] emptyWorld).1.env = emptyWorld.env ∧
    (main lp64 1 ["prog"] emptyWorld).1.files = emptyWorld.files ∧
    (main lp64 1 ["prog"] emptyWorld).1.stdout = emptyWorld.stdout ++ stmts lp64 ∧
    (main lp64 1 ["prog"] emptyWorld).2 = 0 :=
  main_frame lp64 1 ["prog"] emptyWorld

/-- C9: on every conforming C platform on which the program compiles at
all, the third printed line reports size 1 and the fourth reports size 4,
because `uint8_t` and `uint32_t` are exact-width types. -/
theorem main_exact_width_sizes (c : CPlatform) (argc : Nat)
    (argv : List String) (w : World) :
    (main c.toPlatform argc argv w).1.stdout = w.stdout ++
      [line1 c.toPlatform, line2 c.toPlatform,
       "sizeof(uint8_t) = 1\n", "sizeof(uint32_t) = 4\n"] := by
  obtain ⟨h8, h32⟩ := cplatform_sizes c
  simp [main, printf, line1, line2, line3, line4, h8, h32]
  exact ⟨rfl, rfl⟩

/-- A concrete conforming platform: LP64 with 8-bit bytes. -/
def lp64c : CPlatform :=
  ⟨lp64, 8, by decide, by decide, by decide, by decide⟩

/-- C9 witness: exact-width sizes printed on the concrete conforming
platform. -/
theorem main_exact_width_sizes_witness :
    (main lp64c.toPlatform 1 ["prog"] emptyWorld).1.stdout =
      emptyWorld.stdout ++
      [line1 lp64c.toPlatform, line2 lp64c.toPlatform,
       "sizeof(uint8_t) = 1\n", "sizeof(uint32_t) = 4\n"] :=
  main_exact_width_sizes lp64c 1 ["prog"] emptyWorld

/-- C10: the program is deterministic: the step relation is a function of
the state, so any two complete runs from the initial state end in the same
state — identical standard output and identical exit status. -/
theorem main_deterministic (p : Platform) (s1 s2 : ExecState)
    (h1 : Relation.ReflTransGen (Step p) initState s1)
    (hs1 : ∀ t, ¬ Step p s1 t)
    (h2 : Relation.ReflTransGen (Step p) initState s2)
    (hs2 : ∀ t, ¬ Step p s2 t) : s1 = s2 :=
  stuck_unique h1 hs1 h2 hs2

/-- C10 witness: two complete runs at the concrete LP64 platform end in
the same state. -/
theorem main_deterministic_witness : finalState lp64 = finalState lp64 :=
  main_deterministic lp64 (finalState lp64) (finalState lp64)
    (run_to_final lp64) (final_stuck lp64)
    (run_to_final lp64) (final_stuck lp64)

end Db
